import Mathlib

/-!
Verification of `pyart/io/auto_read.py`: the format sniffer
`determine_filetype` and the dispatcher `read`.

The module is Python-2-era code: a file opened in `'rb'` mode yields a byte
string that compares equal to ordinary string literals, so we model byte
strings as `List Nat` (one byte per element) and write each signature as its
list of byte values, with the original literal in a comment.
-/

namespace AutoRead

/-! ## Byte signatures, copied from `determine_filetype` -/

/-- `'\x00\x00\x03\xf8\x00\x007>\x00\x00\x00\x01'` — MDV record header. -/
def mdv_signature : List Nat := [0, 0, 3, 248, 0, 0, 55, 62, 0, 0, 0, 1]

/-- `"CDF"` — NetCDF3 magic. -/
def cdf_signature : List Nat := [67, 68, 70]

/-- `'\x89\x48\x44\x46\x0d\x0a\x1a\x0a'` — HDF5 magic (NetCDF4 container). -/
def hdf5_signature : List Nat := [137, 72, 68, 70, 13, 10, 26, 10]

/-- `"ARCHIVE2."` — WSR-88D archive magic (long form). -/
def archive2_signature : List Nat := [65, 82, 67, 72, 73, 86, 69, 50, 46]

/-- `"AR2V000"` — WSR-88D archive magic (short form). -/
def ar2v_signature : List Nat := [65, 82, 50, 86, 48, 48, 48]

/-- `"UF"` — Universal Format marker. -/
def uf_signature : List Nat := [85, 70]

/-- `"SSWB"` — DORADE block name. -/
def sswb_signature : List Nat := [83, 83, 87, 66]

/-- `"VOLD"` — DORADE block name. -/
def vold_signature : List Nat := [86, 79, 76, 68]

/-- `"COMM"` — DORADE block name. -/
def comm_signature : List Nat := [67, 79, 77, 77]

/-- `"SUNRISE"` — LASSEN marker at bytes 4..10. -/
def sunrise_signature : List Nat := [83, 85, 78, 82, 73, 83, 69]

/-- `"RSL"` — RSL file magic. -/
def rsl_signature : List Nat := [82, 83, 76]

/-- `'\x0e\x03\x13\x01'` — HDF4 magic. -/
def hdf4_signature : List Nat := [14, 3, 19, 1]

/-- `'\x1b'` — SIGMET product-configuration indicator (ESC), a single byte. -/
def sigmet_signature : Nat := 27

/-- `"BZh"` — bzip2 stream magic. -/
def bzip2_signature : List Nat := [66, 90, 104]

/-! ## The signature-matching core of `determine_filetype`

Python slicing `begin[i:j]` is `(begin.drop i).take (j - i)`; a slice of a
short string is short, so comparison against a longer literal is `False`,
exactly as `List.take`/`List.drop` behave.  `begin[0]` on an empty string
raises `IndexError`, which we surface as `none`. -/

/-- The if-chain of `determine_filetype` applied to the first (up to) 12
bytes read from the file.  `none` models the `IndexError` raised by
`begin[0]` when `begin` is empty. -/
def determine_filetype_bytes (begin : List Nat) : Option String :=
  if begin.take 12 = mdv_signature then some "MDV"
  else if begin.take 3 = cdf_signature then some "NETCDF3"
  else if begin.take 8 = hdf5_signature then some "NETCDF4"
  else if begin.take 9 = archive2_signature ∨ begin.take 7 = ar2v_signature then
    some "WSR88D"
  else if begin.take 2 = uf_signature ∨ (begin.drop 2).take 2 = uf_signature ∨
      (begin.drop 4).take 2 = uf_signature then
    some "UF"
  else if begin.take 4 = sswb_signature ∨ begin.take 4 = vold_signature ∨
      begin.take 4 = comm_signature then
    some "DORADE"
  else if (begin.drop 4).take 7 = sunrise_signature then some "LASSEN"
  else if begin.take 3 = rsl_signature then some "RSL"
  else if begin.take 4 = hdf4_signature then some "HDF4"
  else
    match begin with
    | [] => none
    | b0 :: _ =>
      if b0 = sigmet_signature then some "SIGMET"
      else if begin.take 3 = bzip2_signature then some "BZ2"
      else some "UNKNOWN"

/-! ## File-handle model for the sniffer's I/O behaviour

`determine_filetype` does
```
try:
    f = open(filename, 'rb')
except TypeError:
    f = filename
begin = f.read(12)
f.close()
```
A `PyFile` records the byte contents visible to `read`, whether the
`f.read(12)` call raises an I/O error, and whether the handle has been
closed.  There is no `try/finally` in the source: `f.close()` runs only if
`f.read(12)` returned normally, and it runs before any of the signature
matching (so the handle is closed even on the `IndexError` path). -/

structure PyFile where
  contents : List Nat
  readFails : Bool
  closed : Bool
deriving DecidableEq, Repr

/-- `determine_filetype` when the argument is an already-open handle (the
`except TypeError` branch of the source): read 12 bytes, close, match.
Returns the outcome together with the final handle state.  Errors:
`"IOError"` when the read itself raises (the handle is left open),
`"IndexError"` when the matching reaches `begin[0]` on an empty read. -/
def determine_filetype_handle (f : PyFile) :
    Except String String × PyFile :=
  if f.readFails then (Except.error "IOError", f)
  else
    let begin := f.contents.take 12
    let fclosed := { f with closed := true }
    match determine_filetype_bytes begin with
    | some lbl => (Except.ok lbl, fclosed)
    | none => (Except.error "IndexError", fclosed)

/-- `determine_filetype` when the argument is a path: `open(filename, 'rb')`
creates a fresh (open) handle on the file's bytes, after which the body is
identical to the handle case. -/
def determine_filetype_path (contents : List Nat) (readFails : Bool) :
    Except String String × PyFile :=
  determine_filetype_handle
    { contents := contents, readFails := readFails, closed := false }

/-! ## The dispatcher `read` -/

/-- Environment of one `read` call: the leading bytes of the file on disk,
the leading bytes of its bzip2-decompressed stream (consulted only when the
outer bytes sniff as `BZ2`), whether `'cdm_data_type'` is among the global
attributes `netCDF4.Dataset(filename).ncattrs()`, and the module-level flag
`_RSL_AVAILABLE` that gates `from .rsl import read_rsl`. -/
structure ReadEnv where
  outer : List Nat
  inner : List Nat
  hasCdmAttr : Bool
  rslAvailable : Bool
deriving DecidableEq, Repr

/-- Outcome of `read`: which external reader is invoked (carrying the
keyword options forwarded to it), or which exception propagates.
`nameError` models Python's `NameError` when line 96 evaluates the global
`read_rsl`, a name bound only when `_RSL_AVAILABLE` was true at import. -/
inductive ReadResult (K : Type) where
  | read_mdv (kwargs : K)
  | read_nexrad_cdm (kwargs : K)
  | read_cfradial (kwargs : K)
  | read_nexrad_archive (kwargs : K)
  | read_rsl (kwargs : K)
  | read_sigmet (kwargs : K)
  | typeError (msg : String)
  | nameError (missing : String)
  | indexError
deriving DecidableEq, Repr

/-- The dispatcher `read(filename, use_rsl=False, **kwargs)`.  Sniffs the
file, unwraps one layer of bzip2 by re-sniffing the decompressed stream,
then walks the dispatch chain of the source, including the literal list
`rsl_formats = ['UF', 'HDF4', 'RSL', 'DORAD', 'LASSEN']`. -/
def read {K : Type} (env : ReadEnv) (use_rsl : Bool) (kwargs : K) :
    ReadResult K :=
  match determine_filetype_bytes env.outer with
  | none => ReadResult.indexError
  | some ft0 =>
    match (if ft0 = "BZ2" then determine_filetype_bytes env.inner
           else some ft0) with
    | none => ReadResult.indexError
    | some filetype =>
      if filetype = "MDV" then ReadResult.read_mdv kwargs
      else if filetype = "NETCDF3" ∨ filetype = "NETCDF4" then
        if env.hasCdmAttr then ReadResult.read_nexrad_cdm kwargs
        else ReadResult.read_cfradial kwargs
      else if filetype = "WSR88D" then ReadResult.read_nexrad_archive kwargs
      else if filetype = "SIGMET" then
        if use_rsl then
          if env.rslAvailable then ReadResult.read_rsl kwargs
          else ReadResult.nameError "read_rsl"
        else ReadResult.read_sigmet kwargs
      else if filetype ∈ ["UF", "HDF4", "RSL", "DORAD", "LASSEN"] ∧
          env.rslAvailable = true then
        ReadResult.read_rsl kwargs
      else ReadResult.typeError ("Unknown or unsupported file format: " ++ filetype)

/-- Modelled from the spec: the ordered signature table of sections 3 and
4.1 — (byte-pattern-matcher, label) pairs consulted top-to-bottom. -/
def spec_signature_table : List ((List Nat → Bool) × String) :=
  [ (fun b => b.take 12 == mdv_signature, "MDV"),
    (fun b => b.take 3 == cdf_signature, "NETCDF3"),
    (fun b => b.take 8 == hdf5_signature, "NETCDF4"),
    (fun b => b.take 9 == archive2_signature || b.take 7 == ar2v_signature,
      "WSR88D"),
    (fun b => b.take 2 == uf_signature || (b.drop 2).take 2 == uf_signature ||
      (b.drop 4).take 2 == uf_signature, "UF"),
    (fun b => b.take 4 == sswb_signature || b.take 4 == vold_signature ||
      b.take 4 == comm_signature, "DORADE"),
    (fun b => (b.drop 4).take 7 == sunrise_signature, "LASSEN"),
    (fun b => b.take 3 == rsl_signature, "RSL"),
    (fun b => b.take 4 == hdf4_signature, "HDF4"),
    (fun b => b.take 1 == [sigmet_signature], "SIGMET"),
    (fun b => b.take 3 == bzip2_signature, "BZ2") ]

/-- Modelled from the spec: first match wins, `UNKNOWN` when no pattern
matches. -/
def spec_first_match (b : List Nat) : String :=
  match spec_signature_table.find? (fun p => p.1 b) with
  | some p => p.2
  | none => "UNKNOWN"

theorem sniff_eq_spec_first_match (b : List Nat) (hne : b ≠ []) :
    determine_filetype_bytes b = some (spec_first_match b) := by
  obtain ⟨b0, rest, rfl⟩ := List.exists_cons_of_ne_nil hne
  rw [determine_filetype_bytes, spec_first_match, spec_signature_table]
  cases hb1 : (b0 :: rest).take 12 == mdv_signature with
  | true =>
    have h1 : (b0 :: rest).take 12 = mdv_signature := by simpa using hb1
    rw [if_pos h1]
    simp only [List.find?_cons, hb1]
  | false =>
    have h1 : ¬ (b0 :: rest).take 12 = mdv_signature := by simpa using hb1
    rw [if_neg h1]
    cases hb2 : (b0 :: rest).take 3 == cdf_signature with
    | true =>
      have h2 : (b0 :: rest).take 3 = cdf_signature := by simpa using hb2
      rw [if_pos h2]
      simp only [List.find?_cons, hb1, hb2]
    | false =>
      have h2 : ¬ (b0 :: rest).take 3 = cdf_signature := by simpa using hb2
      rw [if_neg h2]
      cases hb3 : (b0 :: rest).take 8 == hdf5_signature with
      | true =>
        have h3 : (b0 :: rest).take 8 = hdf5_signature := by simpa using hb3
        rw [if_pos h3]
        simp only [List.find?_cons, hb1, hb2, hb3]
      | false =>
        have h3 : ¬ (b0 :: rest).take 8 = hdf5_signature := by simpa using hb3
        rw [if_neg h3]
        cases hb4 : ((b0 :: rest).take 9 == archive2_signature || (b0 :: rest).take 7 == ar2v_signature) with
        | true =>
          have h4 : ((b0 :: rest).take 9 = archive2_signature ∨ (b0 :: rest).take 7 = ar2v_signature) := by simpa using hb4
          rw [if_pos h4]
          simp only [List.find?_cons, hb1, hb2, hb3, hb4]
        | false =>
          have h4 : ¬ ((b0 :: rest).take 9 = archive2_signature ∨ (b0 :: rest).take 7 = ar2v_signature) := by simpa using hb4
          rw [if_neg h4]
          cases hb5 : ((b0 :: rest).take 2 == uf_signature || ((b0 :: rest).drop 2).take 2 == uf_signature || ((b0 :: rest).drop 4).take 2 == uf_signature) with
          | true =>
            have h5 : ((b0 :: rest).take 2 = uf_signature ∨ ((b0 :: rest).drop 2).take 2 = uf_signature ∨ ((b0 :: rest).drop 4).take 2 = uf_signature) := by simpa [or_assoc] using hb5
            rw [if_pos h5]
            simp only [List.find?_cons, hb1, hb2, hb3, hb4, hb5]
          | false =>
            have h5 : ¬ ((b0 :: rest).take 2 = uf_signature ∨ ((b0 :: rest).drop 2).take 2 = uf_signature ∨ ((b0 :: rest).drop 4).take 2 = uf_signature) := by simpa [and_assoc] using hb5
            rw [if_neg h5]
            cases hb6 : ((b0 :: rest).take 4 == sswb_signature || (b0 :: rest).take 4 == vold_signature || (b0 :: rest).take 4 == comm_signature) with
            | true =>
              have h6 : ((b0 :: rest).take 4 = sswb_signature ∨ (b0 :: rest).take 4 = vold_signature ∨ (b0 :: rest).take 4 = comm_signature) := by simpa [or_assoc] using hb6
              rw [if_pos h6]
              simp only [List.find?_cons, hb1, hb2, hb3, hb4, hb5, hb6]
            | false =>
              have h6 : ¬ ((b0 :: rest).take 4 = sswb_signature ∨ (b0 :: rest).take 4 = vold_signature ∨ (b0 :: rest).take 4 = comm_signature) := by simpa [and_assoc] using hb6
              rw [if_neg h6]
              cases hb7 : ((b0 :: rest).drop 4).take 7 == sunrise_signature with
              | true =>
                have h7 : ((b0 :: rest).drop 4).take 7 = sunrise_signature := by simpa using hb7
                rw [if_pos h7]
                simp only [List.find?_cons, hb1, hb2, hb3, hb4, hb5, hb6, hb7]
              | false =>
                have h7 : ¬ ((b0 :: rest).drop 4).take 7 = sunrise_signature := by simpa using hb7
                rw [if_neg h7]
                cases hb8 : (b0 :: rest).take 3 == rsl_signature with
                | true =>
                  have h8 : (b0 :: rest).take 3 = rsl_signature := by simpa using hb8
                  rw [if_pos h8]
                  simp only [List.find?_cons, hb1, hb2, hb3, hb4, hb5, hb6, hb7, hb8]
                | false =>
                  have h8 : ¬ (b0 :: rest).take 3 = rsl_signature := by simpa using hb8
                  rw [if_neg h8]
                  cases hb9 : (b0 :: rest).take 4 == hdf4_signature with
                  | true =>
                    have h9 : (b0 :: rest).take 4 = hdf4_signature := by simpa using hb9
                    rw [if_pos h9]
                    simp only [List.find?_cons, hb1, hb2, hb3, hb4, hb5, hb6, hb7, hb8, hb9]
                  | false =>
                    have h9 : ¬ (b0 :: rest).take 4 = hdf4_signature := by simpa using hb9
                    rw [if_neg h9]
                    show (if b0 = sigmet_signature then some "SIGMET"
                        else if (b0 :: rest).take 3 = bzip2_signature then some "BZ2"
                        else some "UNKNOWN") = _
                    cases hb10 : (b0 :: rest).take 1 == [sigmet_signature] with
                    | true =>
                      have h10 : b0 = sigmet_signature := by simpa using hb10
                      rw [if_pos h10]
                      simp only [List.find?_cons, hb1, hb2, hb3, hb4, hb5, hb6, hb7, hb8, hb9, hb10]
                    | false =>
                      have h10 : ¬ b0 = sigmet_signature := by simpa using hb10
                      rw [if_neg h10]
                      cases hb11 : (b0 :: rest).take 3 == bzip2_signature with
                      | true =>
                        have h11 : (b0 :: rest).take 3 = bzip2_signature := by simpa using hb11
                        rw [if_pos h11]
                        simp only [List.find?_cons, hb1, hb2, hb3, hb4, hb5, hb6, hb7, hb8, hb9, hb10, hb11]
                      | false =>
                        have h11 : ¬ (b0 :: rest).take 3 = bzip2_signature := by simpa using hb11
                        rw [if_neg h11]
                        simp only [List.find?_cons, hb1, hb2, hb3, hb4, hb5, hb6, hb7, hb8, hb9, hb10, hb11, List.find?_nil]

/-! ## Helper lemmas -/

/-- A prefix that satisfies the RSL pattern makes the sniffer stop at or
before the RSL entry: none of the labels listed after RSL can result. -/
theorem sniff_rsl_prefix_not_late (b0 : Nat) (rest : List Nat)
    (h : (b0 :: rest).take 3 = rsl_signature) :
    determine_filetype_bytes (b0 :: rest) ≠ some "HDF4" ∧
    determine_filetype_bytes (b0 :: rest) ≠ some "SIGMET" ∧
    determine_filetype_bytes (b0 :: rest) ≠ some "BZ2" ∧
    determine_filetype_bytes (b0 :: rest) ≠ some "UNKNOWN" := by
  rw [determine_filetype_bytes]
  split_ifs <;> decide

/-- A prefix starting with the NetCDF3 magic `"CDF"` always sniffs as
`NETCDF3` (the only earlier entry, MDV, begins with a NUL byte). -/
theorem sniff_cdf (b : List Nat) (h : b.take 3 = cdf_signature) :
    determine_filetype_bytes b = some "NETCDF3" := by
  have hm : ¬ b.take 12 = mdv_signature := by
    intro hc
    have h3 : b.take 3 = [0, 0, 3] := by
      have := congrArg (List.take 3) hc
      simpa [List.take_take, mdv_signature] using this
    rw [h] at h3
    exact absurd h3 (by decide)
  rw [determine_filetype_bytes.eq_def, if_neg hm, if_pos h]

/-- The disjunction of all eleven pattern tests of the sniffer (the SIGMET
test phrased totally as a one-byte-prefix test). -/
def matchesSomeSignature (b : List Nat) : Prop :=
  b.take 12 = mdv_signature ∨ b.take 3 = cdf_signature ∨
  b.take 8 = hdf5_signature ∨
  b.take 9 = archive2_signature ∨ b.take 7 = ar2v_signature ∨
  b.take 2 = uf_signature ∨ (b.drop 2).take 2 = uf_signature ∨
  (b.drop 4).take 2 = uf_signature ∨
  b.take 4 = sswb_signature ∨ b.take 4 = vold_signature ∨
  b.take 4 = comm_signature ∨
  (b.drop 4).take 7 = sunrise_signature ∨ b.take 3 = rsl_signature ∨
  b.take 4 = hdf4_signature ∨ b.take 1 = [sigmet_signature] ∨
  b.take 3 = bzip2_signature

instance (b : List Nat) : Decidable (matchesSomeSignature b) := by
  unfold matchesSomeSignature
  infer_instance

/-- On a nonempty prefix that matches none of the patterns, the sniffer
returns `UNKNOWN` and raises nothing. -/
theorem sniff_unknown_of_no_match (b : List Nat) (hne : b ≠ [])
    (h : ¬ matchesSomeSignature b) :
    determine_filetype_bytes b = some "UNKNOWN" := by
  obtain ⟨b0, rest, rfl⟩ := List.exists_cons_of_ne_nil hne
  unfold matchesSomeSignature at h
  push_neg at h
  obtain ⟨h1, h2, h3, h4, h5, h6, h7, h8, h9, h10, h11, h12, h13, h14,
    h15, h16⟩ := h
  have hb0 : ¬ b0 = sigmet_signature := by
    intro hc
    exact h15 (by simp [hc])
  rw [determine_filetype_bytes]
  rw [if_neg h1, if_neg h2, if_neg h3, if_neg (not_or.mpr ⟨h4, h5⟩),
    if_neg (by tauto), if_neg (by tauto), if_neg h12, if_neg h13,
    if_neg h14]
  show (if b0 = sigmet_signature then some "SIGMET"
    else if (b0 :: rest).take 3 = bzip2_signature then some "BZ2"
    else some "UNKNOWN") = _
  rw [if_neg hb0, if_neg h16]

/-! ## Claim theorems -/

/-- C1: the claim says every file sniffed as one of UF, HDF4, RSL, DORADE,
LASSEN is dispatched to `read_rsl` when the RSL library is available.  The
code evaluates it at a DORADE file (bytes `"SSWB"...`) with the library
available: the sniffer returns `"DORADE"`, but the dispatch list on line
101 contains the misspelt literal `'DORAD'`, so the file falls through to
the unsupported-format `TypeError` instead of reaching `read_rsl`. -/
theorem C1_dorade_falls_through :
    determine_filetype_bytes [83, 83, 87, 66, 0, 0, 0, 0, 0, 0, 0, 0] =
      some "DORADE" ∧
    read (K := Unit)
        ⟨[83, 83, 87, 66, 0, 0, 0, 0, 0, 0, 0, 0], [], false, true⟩ false () =
      ReadResult.typeError
        ("Unknown or unsupported file format: " ++ "DORADE") := by
  decide

/-- C2 counterexample: an externally-supplied open handle (here holding the
bytes `"CDF"`) is closed by the sniffer — `f.close()` on line 152 runs for
every handle, refuting the claim that a supplied handle is left open. -/
theorem C2_counterexample :
    (determine_filetype_handle ⟨[67, 68, 70], false, false⟩).1 =
      Except.ok "NETCDF3" ∧
    (determine_filetype_handle ⟨[67, 68, 70], false, false⟩).2.closed =
      true :=
  ⟨rfl, rfl⟩

/-- C2 amended: the sniffer uses an externally-supplied handle directly but
closes it unconditionally after a successful read, exactly as it does a
handle it opened itself. -/
theorem C2_amended_closes_supplied_handle (contents : List Nat)
    (closed0 : Bool) :
    ((determine_filetype_handle ⟨contents, false, closed0⟩).2).closed =
      true := by
  unfold determine_filetype_handle
  cases h : determine_filetype_bytes (contents.take 12) <;> simp [h]

/-- C3 counterexample: on a path-backed call whose 12-byte read raises, the
handle the sniffer opened is left open when the error propagates — there is
no `try/finally` around lines 151-152. -/
theorem C3_counterexample :
    (determine_filetype_path [67, 68, 70] true).1 =
      Except.error "IOError" ∧
    (determine_filetype_path [67, 68, 70] true).2.closed = false :=
  ⟨rfl, rfl⟩

/-- C3 amended: the handle opened for a path-backed sniff is closed on
every exit path on which the initial read returns (normal label, no match,
and the empty-read `IndexError` path alike), but when the read itself
raises the handle is left open. -/
theorem C3_amended_close_on_read_success (contents : List Nat) :
    ((determine_filetype_path contents false).2).closed = true ∧
    ((determine_filetype_path contents true).2).closed = false := by
  constructor
  · unfold determine_filetype_path determine_filetype_handle
    cases h : determine_filetype_bytes (contents.take 12) <;> simp [h]
  · rfl

/-- C4 counterexample: the empty input matches no signature, yet the
sniffer raises (`begin[0]` on line 206 is an `IndexError` on an empty byte
string) instead of returning `UNKNOWN`. -/
theorem C4_counterexample :
    ¬ matchesSomeSignature ([] : List Nat) ∧
    determine_filetype_bytes [] = none ∧
    (determine_filetype_path [] false).1 = Except.error "IndexError" :=
  ⟨by decide, rfl, rfl⟩

/-- C4 amended: for every nonempty readable input whose content matches no
signature — including a prefix shorter than the shortest signature, such as
a single byte — the sniffer raises no exception and returns `UNKNOWN`; the
empty input instead raises an `IndexError`. -/
theorem C4_amended_unknown (b : List Nat) (hne : b ≠ [])
    (h : ¬ matchesSomeSignature b) :
    determine_filetype_bytes b = some "UNKNOWN" :=
  sniff_unknown_of_no_match b hne h

/-- C4 amended, witness: a one-byte input. -/
theorem C4_amended_unknown_witness :
    ([5] : List Nat) ≠ [] ∧ ¬ matchesSomeSignature [5] ∧
    determine_filetype_bytes [5] = some "UNKNOWN" :=
  ⟨by decide, by decide, C4_amended_unknown [5] (by decide) (by decide)⟩

/-- C5: on every 12-byte prefix the sniffer agrees with the spec's ordered
signature table under first-match-wins (order MDV, NETCDF3, NETCDF4,
WSR88D, UF, DORADE, LASSEN, RSL, HDF4, SIGMET, BZ2, default UNKNOWN), and
a prefix starting `"RSL"` never resolves to any label listed after RSL. -/
theorem C5_precedence (b : List Nat) (hlen : b.length = 12) :
    determine_filetype_bytes b = some (spec_first_match b) ∧
    (b.take 3 = rsl_signature →
      determine_filetype_bytes b ≠ some "HDF4" ∧
      determine_filetype_bytes b ≠ some "SIGMET" ∧
      determine_filetype_bytes b ≠ some "BZ2" ∧
      determine_filetype_bytes b ≠ some "UNKNOWN") := by
  have hne : b ≠ [] := by
    intro hc
    rw [hc] at hlen
    exact absurd hlen (by decide)
  refine ⟨sniff_eq_spec_first_match b hne, ?_⟩
  obtain ⟨b0, rest, rfl⟩ := List.exists_cons_of_ne_nil hne
  exact sniff_rsl_prefix_not_late b0 rest

/-- C5, witness: a 12-byte prefix starting `"RSL"`. -/
theorem C5_precedence_witness :
    ([82, 83, 76, 0, 0, 0, 0, 0, 0, 0, 0, 0] : List Nat).length = 12 ∧
    determine_filetype_bytes [82, 83, 76, 0, 0, 0, 0, 0, 0, 0, 0, 0] =
      some (spec_first_match [82, 83, 76, 0, 0, 0, 0, 0, 0, 0, 0, 0]) ∧
    ([82, 83, 76, 0, 0, 0, 0, 0, 0, 0, 0, 0] : List Nat).take 3 =
      rsl_signature ∧
    determine_filetype_bytes [82, 83, 76, 0, 0, 0, 0, 0, 0, 0, 0, 0] ≠
      some "UNKNOWN" :=
  ⟨by decide,
   (C5_precedence [82, 83, 76, 0, 0, 0, 0, 0, 0, 0, 0, 0] (by decide)).1,
   by decide,
   ((C5_precedence [82, 83, 76, 0, 0, 0, 0, 0, 0, 0, 0, 0]
      (by decide)).2 (by decide)).2.2.2⟩

/-- C6: for every file whose outer bytes sniff as BZ2, `read` re-sniffs
the bzip2-decompressing stream and dispatches on the inner label alone —
each possible inner outcome (every label the sniffer can produce, and the
empty-read error) is routed exactly as the dispatch chain routes that
label; in particular decompressed content starting `"CDF"` sniffs as
NETCDF3 and takes the NetCDF dispatch branch. -/
theorem C6_bz2_unwrap {K : Type} (env : ReadEnv) (use_rsl : Bool)
    (kwargs : K)
    (houter : determine_filetype_bytes env.outer = some "BZ2") :
    (determine_filetype_bytes env.inner = none →
      read env use_rsl kwargs = ReadResult.indexError) ∧
    (determine_filetype_bytes env.inner = some "MDV" →
      read env use_rsl kwargs = ReadResult.read_mdv kwargs) ∧
    (determine_filetype_bytes env.inner = some "NETCDF3" ∨
        determine_filetype_bytes env.inner = some "NETCDF4" →
      read env use_rsl kwargs =
        if env.hasCdmAttr then ReadResult.read_nexrad_cdm kwargs
        else ReadResult.read_cfradial kwargs) ∧
    (determine_filetype_bytes env.inner = some "WSR88D" →
      read env use_rsl kwargs = ReadResult.read_nexrad_archive kwargs) ∧
    (determine_filetype_bytes env.inner = some "SIGMET" →
      read env use_rsl kwargs =
        if use_rsl then
          (if env.rslAvailable then ReadResult.read_rsl kwargs
           else ReadResult.nameError "read_rsl")
        else ReadResult.read_sigmet kwargs) ∧
    (∀ lbl, lbl ∈ (["UF", "HDF4", "RSL", "LASSEN"] : List String) →
      determine_filetype_bytes env.inner = some lbl →
      env.rslAvailable = true →
      read env use_rsl kwargs = ReadResult.read_rsl kwargs) ∧
    (∀ lbl, lbl ∈ (["UF", "HDF4", "RSL", "LASSEN"] : List String) →
      determine_filetype_bytes env.inner = some lbl →
      env.rslAvailable = false →
      read env use_rsl kwargs =
        ReadResult.typeError
          ("Unknown or unsupported file format: " ++ lbl)) ∧
    (∀ lbl, lbl ∈ (["DORADE", "BZ2", "UNKNOWN"] : List String) →
      determine_filetype_bytes env.inner = some lbl →
      read env use_rsl kwargs =
        ReadResult.typeError
          ("Unknown or unsupported file format: " ++ lbl)) ∧
    (env.inner.take 3 = cdf_signature →
      read env use_rsl kwargs =
        if env.hasCdmAttr then ReadResult.read_nexrad_cdm kwargs
        else ReadResult.read_cfradial kwargs) := by
  refine ⟨?_, ?_, ?_, ?_, ?_, ?_, ?_, ?_, ?_⟩
  · intro h
    simp [read, houter, h]
  · intro h
    simp [read, houter, h]
  · rintro (h | h) <;> simp [read, houter, h]
  · intro h
    simp [read, houter, h]
  · intro h
    cases use_rsl <;> simp [read, houter, h]
  · intro lbl hlbl h ha
    fin_cases hlbl <;> simp [read, houter, h, ha]
  · intro lbl hlbl h ha
    fin_cases hlbl <;> simp [read, houter, h, ha]
  · intro lbl hlbl h
    fin_cases hlbl <;> simp [read, houter, h]
  · intro h
    simp [read, houter, sniff_cdf env.inner h]

/-- C6, witness: one bzip2 outer header with, in turn, MDV, WSR-88D,
`"CDF"` and unmatched inner content. -/
theorem C6_bz2_unwrap_witness :
    determine_filetype_bytes [66, 90, 104, 57] = some "BZ2" ∧
    determine_filetype_bytes mdv_signature = some "MDV" ∧
    read (K := Unit) ⟨[66, 90, 104, 57], mdv_signature, false, false⟩
        false () = ReadResult.read_mdv () ∧
    determine_filetype_bytes [65, 82, 67, 72, 73, 86, 69, 50, 46] =
      some "WSR88D" ∧
    read (K := Unit)
        ⟨[66, 90, 104, 57], [65, 82, 67, 72, 73, 86, 69, 50, 46],
          false, false⟩ false () = ReadResult.read_nexrad_archive () ∧
    determine_filetype_bytes [67, 68, 70] = some "NETCDF3" ∧
    read (K := Unit) ⟨[66, 90, 104, 57], [67, 68, 70], true, false⟩
        false () = ReadResult.read_nexrad_cdm () ∧
    read (K := Unit) ⟨[66, 90, 104, 57], [5], false, false⟩ false () =
      ReadResult.typeError
        ("Unknown or unsupported file format: " ++ "UNKNOWN") := by
  refine ⟨by decide, by decide, ?_, by decide, ?_, by decide, ?_, ?_⟩
  · exact (C6_bz2_unwrap (K := Unit)
      ⟨[66, 90, 104, 57], mdv_signature, false, false⟩ false ()
      (by decide)).2.1 (by decide)
  · exact (C6_bz2_unwrap (K := Unit)
      ⟨[66, 90, 104, 57], [65, 82, 67, 72, 73, 86, 69, 50, 46],
        false, false⟩ false () (by decide)).2.2.2.1 (by decide)
  · simpa using (C6_bz2_unwrap (K := Unit)
      ⟨[66, 90, 104, 57], [67, 68, 70], true, false⟩ false ()
      (by decide)).2.2.1 (Or.inl (by decide))
  · exact (C6_bz2_unwrap (K := Unit)
      ⟨[66, 90, 104, 57], [5], false, false⟩ false ()
      (by decide)).2.2.2.2.2.2.2.1 "UNKNOWN" (by decide) (by decide)

/-- C7: a file sniffed as NETCDF3 or NETCDF4 is opened as a dataset and
dispatched on its global attributes — `cdm_data_type` present routes to the
NEXRAD-CDM reader, absent to the CF/Radial reader. -/
theorem C7_netcdf_cdm_dispatch {K : Type} (env : ReadEnv) (use_rsl : Bool)
    (kwargs : K)
    (h : determine_filetype_bytes env.outer = some "NETCDF3" ∨
      determine_filetype_bytes env.outer = some "NETCDF4") :
    read env use_rsl kwargs =
      if env.hasCdmAttr then ReadResult.read_nexrad_cdm kwargs
      else ReadResult.read_cfradial kwargs := by
  rcases h with h | h <;> simp [read, h]

/-- C7, witness: a `"CDF"` file with and without the attribute. -/
theorem C7_netcdf_cdm_dispatch_witness :
    determine_filetype_bytes [67, 68, 70] = some "NETCDF3" ∧
    read (K := Unit) ⟨[67, 68, 70], [], true, false⟩ false () =
      ReadResult.read_nexrad_cdm () ∧
    read (K := Unit) ⟨[67, 68, 70], [], false, false⟩ false () =
      ReadResult.read_cfradial () := by
  refine ⟨by decide, ?_, ?_⟩
  · simpa using C7_netcdf_cdm_dispatch (K := Unit)
      ⟨[67, 68, 70], [], true, false⟩ false () (Or.inl (by decide))
  · simpa using C7_netcdf_cdm_dispatch (K := Unit)
      ⟨[67, 68, 70], [], false, false⟩ false () (Or.inl (by decide))

/-- C8: a file sniffed as SIGMET goes to the legacy reader when `use_rsl`
is true (library available) and to the native Sigmet reader when false; the
same keyword-options value is forwarded in both cases. -/
theorem C8_sigmet_dispatch {K : Type} (env : ReadEnv) (kwargs : K)
    (h : determine_filetype_bytes env.outer = some "SIGMET")
    (ha : env.rslAvailable = true) :
    read env true kwargs = ReadResult.read_rsl kwargs ∧
    read env false kwargs = ReadResult.read_sigmet kwargs := by
  constructor <;> simp [read, h, ha]

/-- C8, witness: a one-ESC-byte Sigmet file. -/
theorem C8_sigmet_dispatch_witness :
    determine_filetype_bytes [27] = some "SIGMET" ∧
    read (K := Unit) ⟨[27], [], false, true⟩ true () =
      ReadResult.read_rsl () ∧
    read (K := Unit) ⟨[27], [], false, true⟩ false () =
      ReadResult.read_sigmet () :=
  ⟨by decide,
   (C8_sigmet_dispatch (K := Unit) ⟨[27], [], false, true⟩ ()
     (by decide) rfl).1,
   (C8_sigmet_dispatch (K := Unit) ⟨[27], [], false, true⟩ ()
     (by decide) rfl).2⟩

/-- C9: a label of UNKNOWN, or any of the five legacy-only labels while the
legacy library is unavailable, makes `read` raise the single
unsupported-format `TypeError` whose message names the detected label; no
reader result is returned. -/
theorem C9_unsupported_failure {K : Type} (env : ReadEnv) (use_rsl : Bool)
    (kwargs : K) :
    (determine_filetype_bytes env.outer = some "UNKNOWN" →
      read env use_rsl kwargs =
        ReadResult.typeError
          ("Unknown or unsupported file format: " ++ "UNKNOWN")) ∧
    (∀ lbl, lbl ∈ (["UF", "HDF4", "RSL", "DORADE", "LASSEN"] :
        List String) →
      env.rslAvailable = false →
      determine_filetype_bytes env.outer = some lbl →
      read env use_rsl kwargs =
        ReadResult.typeError
          ("Unknown or unsupported file format: " ++ lbl)) := by
  constructor
  · intro h
    simp [read, h]
  · intro lbl hlbl hna h
    fin_cases hlbl <;> simp [read, h, hna]

/-- C9, witness: an unmatched one-byte file, and a UF file with the
library unavailable. -/
theorem C9_unsupported_failure_witness :
    determine_filetype_bytes [5] = some "UNKNOWN" ∧
    read (K := Unit) ⟨[5], [], false, false⟩ false () =
      ReadResult.typeError
        ("Unknown or unsupported file format: " ++ "UNKNOWN") ∧
    determine_filetype_bytes [85, 70] = some "UF" ∧
    read (K := Unit) ⟨[85, 70], [], false, false⟩ false () =
      ReadResult.typeError
        ("Unknown or unsupported file format: " ++ "UF") :=
  ⟨by decide,
   (C9_unsupported_failure (K := Unit) ⟨[5], [], false, false⟩
     false ()).1 (by decide),
   by decide,
   (C9_unsupported_failure (K := Unit) ⟨[85, 70], [], false, false⟩
     false ()).2 "UF" (by decide) rfl (by decide)⟩

/-- C10: a SIGMET file with `use_rsl=True` while the library is
unavailable hits the unbound global `read_rsl` (imported only when
`_RSL_AVAILABLE`), so `read` fails with a `NameError` — not with the
unsupported-format `TypeError` and not by falling back to the native
reader. -/
theorem C10_sigmet_nameerror {K : Type} (env : ReadEnv) (kwargs : K)
    (h : determine_filetype_bytes env.outer = some "SIGMET")
    (hna : env.rslAvailable = false) :
    read env true kwargs = ReadResult.nameError "read_rsl" := by
  simp [read, h, hna]

/-- C10, witness: a one-ESC-byte Sigmet file, library unavailable. -/
theorem C10_sigmet_nameerror_witness :
    determine_filetype_bytes [27] = some "SIGMET" ∧
    read (K := Unit) ⟨[27], [], false, false⟩ true () =
      ReadResult.nameError "read_rsl" :=
  ⟨by decide,
   C10_sigmet_nameerror (K := Unit) ⟨[27], [], false, false⟩ ()
     (by decide) rfl⟩

end AutoRead
